import Mathlib

/-!
Verification development for the quiz-chain solver.

The definitions below are a shallow embedding of the orchestrator core of the
repository: `src/solver/quiz_solver.py` (fetch / parse / solve / submit loop),
`src/solver/task_handlers.py` (handler strategies), `src/solver/llm_client.py`
(response post-processing of `solve_math_problem`), `src/utils/helpers.py`
(`Timer`, `get_payload_size`) and `src/config.py` (`Settings`).

External collaborators (headless browser, BeautifulSoup text/link extraction,
the OpenAI client, pandas/PyPDF2 format converters, httpx transport) are
modelled as oracle fields of an `Env` record: each is a pure function that
stands for one collaborator call, returning `Option` to model the caught
exceptions of the Python code.  Wall-clock time is passed explicitly as a
rational number.  All control flow, string processing, regular-expression
matching and truthiness tests of the core are translated directly from the
source.
-/

namespace QuizSolver

/-! ### Python string primitives -/

/-- ASCII whitespace as matched by Python's `str.strip` / regex `\s`
(space, tab, newline, carriage return, vertical tab, form feed; the
additional Unicode whitespace accepted by Python does not occur in the
claims and is omitted). -/
def pyIsSpace (c : Char) : Bool :=
  c = ' ' || c = '\t' || c = '\n' || c = '\r' || c = Char.ofNat 11 || c = Char.ofNat 12

/-- Strip ASCII whitespace from both ends of a character list
(Python `str.strip()`). -/
def stripWsList (cs : List Char) : List Char :=
  ((cs.dropWhile pyIsSpace).reverse.dropWhile pyIsSpace).reverse

/-- Python `str.strip()`. -/
def pyStrip (s : String) : String :=
  String.mk (stripWsList s.toList)

/-- Substring containment on character lists: `needle` occurs contiguously in
the second argument.  Models Python's `needle in haystack`. -/
def listContainsSub (needle : List Char) : List Char → Bool
  | [] => needle.isEmpty
  | c :: rest => needle.isPrefixOf (c :: rest) || listContainsSub needle rest

/-- Python `needle in haystack` on strings. -/
def pyIn (needle haystack : String) : Bool :=
  listContainsSub needle.toList haystack.toList

/-- Python `s.endswith(suffix)`. -/
def pyEndsWith (s suffix : String) : Bool :=
  suffix.toList.isSuffixOf s.toList

/-- Python truthiness of an optional string (`if x:`): `None` and the empty
string are falsy. -/
def pyTruthyOptStr : Option String → Bool
  | none => false
  | some s => s ≠ ""

/-! ### Python numeric literal parsing (`int(...)` / `float(...)`) -/

/-- Numeric value of a list of decimal digit characters. -/
def digitsToNat (ds : List Char) : Nat :=
  ds.foldl (fun a c => a * 10 + (c.toNat - 48)) 0

/-- Consume a maximal group of decimal digits in which single underscores may
appear between digits (Python numeric literal syntax for `int()`/`float()`).
Returns `none` when an underscore is misplaced (leading, trailing or doubled),
otherwise the digits seen and the unconsumed remainder. -/
def parseUGroupAux : List Char → List Char → Option (List Char × List Char)
  | c :: rest, acc =>
    if c.isDigit then parseUGroupAux rest (acc ++ [c])
    else if c = '_' then
      match acc, rest with
      | [], _ => none
      | _, d :: _ => if d.isDigit then parseUGroupAux rest acc else none
      | _, [] => none
    else some (acc, c :: rest)
  | [], acc => some (acc, [])

/-- Maximal underscore-grouped digit run at the front of a list. -/
def parseUGroup (cs : List Char) : Option (List Char × List Char) :=
  parseUGroupAux cs []

/-- Python `int(s)`: optional surrounding whitespace, optional sign, a
non-empty underscore-grouped run of decimal digits; `none` models the
`ValueError` raised on any other input. -/
def pyIntParse (s : String) : Option Int :=
  let cs := stripWsList s.toList
  let core : List Char → Option Nat := fun body =>
    match parseUGroup body with
    | some (ds, []) => if ds.isEmpty then none else some (digitsToNat ds)
    | _ => none
  match cs with
  | '+' :: rest => (core rest).map Int.ofNat
  | '-' :: rest => (core rest).map (fun n => -(n : Int))
  | _ => (core cs).map Int.ofNat

/-- Drop one optional leading sign character. -/
def dropSign1 : List Char → List Char
  | '+' :: rest => rest
  | '-' :: rest => rest
  | cs => cs

/-- Case-insensitive comparison of a character list against a lowercase
keyword. -/
def ciEq (cs : List Char) (kw : String) : Bool :=
  cs.map Char.toLower == kw.toList

/-- Exponent part of a Python float literal: empty, or `e`/`E`, optional sign
and a non-empty digit group consuming the whole remainder. -/
def pyExpPart : List Char → Bool
  | [] => true
  | c :: rest =>
    if c = 'e' || c = 'E' then
      match parseUGroup (dropSign1 rest) with
      | some (ds, []) => !ds.isEmpty
      | _ => false
    else false

/-- Mantissa-and-exponent body of a Python float literal (after the sign). -/
def pyFloatBody (cs : List Char) : Bool :=
  match parseUGroup cs with
  | none => false
  | some (ds1, r1) =>
    match r1 with
    | '.' :: r =>
      match parseUGroup r with
      | none => false
      | some (ds2, r2) => (!ds1.isEmpty || !ds2.isEmpty) && pyExpPart r2
    | _ => !ds1.isEmpty && pyExpPart r1

/-- Acceptance of Python `float(s)`: optional surrounding whitespace and sign,
then `inf`/`infinity`/`nan` (case-insensitively) or a decimal mantissa with
optional fraction and exponent.  `false` models the raised `ValueError`. -/
def pyFloatValid (s : String) : Bool :=
  let cs := dropSign1 (stripWsList s.toList)
  ciEq cs "inf" || ciEq cs "infinity" || ciEq cs "nan" || pyFloatBody cs

/-! ### JSON payload serialization (`json.dumps` + UTF-8 size)

The submission payload built in `QuizSolver.submit_answer` is the flat
dictionary `{"email": ..., "secret": ..., "url": ..., "answer": ...}` whose
first three values are strings and whose answer is one of the scalar values a
handler can produce (string, int, or float).  `payloadDumps` reproduces
`json.dumps` on exactly this shape: default separators `", "` and `": "`,
`ensure_ascii=True` escaping, insertion order of the dict literal. -/

/-- Lowercase hexadecimal digit. -/
def hexDigit (n : Nat) : Char :=
  if n < 10 then Char.ofNat (48 + n) else Char.ofNat (87 + n)

/-- A `\uXXXX` escape for a 16-bit code unit. -/
def uEscape (n : Nat) : List Char :=
  ['\\', 'u', hexDigit (n / 4096 % 16), hexDigit (n / 256 % 16),
   hexDigit (n / 16 % 16), hexDigit (n % 16)]

/-- Escaping of one character by `json.dumps` with `ensure_ascii=True`. -/
def jsonEscapeChar (c : Char) : List Char :=
  if c = '"' then ['\\', '"']
  else if c = '\\' then ['\\', '\\']
  else if c.toNat = 8 then ['\\', 'b']
  else if c.toNat = 9 then ['\\', 't']
  else if c.toNat = 10 then ['\\', 'n']
  else if c.toNat = 12 then ['\\', 'f']
  else if c.toNat = 13 then ['\\', 'r']
  else if c.toNat < 32 then uEscape c.toNat
  else if c.toNat < 127 then [c]
  else if c.toNat < 65536 then uEscape c.toNat
  else
    uEscape (55296 + (c.toNat - 65536) / 1024) ++ uEscape (56320 + (c.toNat - 65536) % 1024)

/-- JSON serialization of a string value (quotes plus escaped content). -/
def jsonDumpStr (s : String) : List Char :=
  '"' :: (s.toList.flatMap jsonEscapeChar) ++ ['"']

/-- Decimal digit characters of a natural number (fueled helper). -/
def natDigitsAux : Nat → Nat → List Char
  | 0, _ => []
  | fuel + 1, n =>
    if n < 10 then [Char.ofNat (48 + n)]
    else natDigitsAux fuel (n / 10) ++ [Char.ofNat (48 + n % 10)]

/-- Decimal digit characters of a natural number. -/
def natDigits (n : Nat) : List Char :=
  natDigitsAux (n + 1) n

/-- Decimal representation of an integer, as printed by `json.dumps`. -/
def intRepr (n : Int) : List Char :=
  if n < 0 then '-' :: natDigits n.natAbs else natDigits n.natAbs

/-- UTF-8 byte width of one character (as in `str.encode('utf-8')`). -/
def utf8CharLen (c : Char) : Nat :=
  if c.toNat < 128 then 1
  else if c.toNat < 2048 then 2
  else if c.toNat < 65536 then 3
  else 4

/-- UTF-8 byte length of a character list. -/
def utf8Len (cs : List Char) : Nat :=
  (cs.map utf8CharLen).sum

/-- Scalar answer values producible by the reachable handlers: the string of
an LLM reply, or the int/float into which `solve_math_problem` parses a
numeric-looking reply.  A float answer carries the cleaned reply text it was
parsed from (Python's shortest-repr normalization of float output is a
numerics concern not modelled here; no claim inspects a serialized float). -/
inductive PyAnswer where
  | aint (n : Int)
  | afloat (cleanSrc : String)
  | astr (s : String)
  deriving DecidableEq, Repr

/-- Serialization of the answer value inside the payload. -/
def answerDumps : PyAnswer → List Char
  | .aint n => intRepr n
  | .afloat r => r.toList
  | .astr s => jsonDumpStr s

/-- Submission payload: the dict literal built in `submit_answer`
(`email`, `secret`, `url`, `answer` in insertion order). -/
structure Payload where
  email : String
  secret : String
  url : String
  answer : PyAnswer
  deriving DecidableEq, Repr

/-- Python `json.dumps(payload)` for the submission payload dictionary. -/
def payloadDumps (p : Payload) : List Char :=
  [Char.ofNat 123] ++
  jsonDumpStr "email" ++ ':' :: ' ' :: jsonDumpStr p.email ++ ',' :: ' ' ::
  jsonDumpStr "secret" ++ ':' :: ' ' :: jsonDumpStr p.secret ++ ',' :: ' ' ::
  jsonDumpStr "url" ++ ':' :: ' ' :: jsonDumpStr p.url ++ ',' :: ' ' ::
  jsonDumpStr "answer" ++ ':' :: ' ' :: answerDumps p.answer ++
  [Char.ofNat 125]

/-- Source `get_payload_size` (`src/utils/helpers.py`):
`len(json.dumps(data).encode('utf-8'))`. -/
def get_payload_size (p : Payload) : Nat :=
  utf8Len (payloadDumps p)

/-- Source `Settings` (`src/config.py`): the two numeric knobs the core
reads, with their declared defaults. -/
structure Settings where
  timeout_seconds : Int := 180
  max_payload_size : Nat := 1048576
  deriving DecidableEq, Repr

/-- The settings record with every field left at its declared default. -/
def defaultSettings : Settings := {}

/-! ### The submit-URL pattern

`parse_quiz_task` locates the submission endpoint with
`re.search(r'https?://[^\s<>"]+/submit[^\s<>"]*', content)`.
`matchSubmitAt` decides whether the pattern matches anchored at the start of a
character list and returns the matched text; `findSubmitAux` scans start
positions left to right, reproducing `re.search`'s leftmost-match rule.  At a
fixed start the match extent is determined: after the scheme, the greedy
classes `[^\s<>"]+` and `[^\s<>"]*` together always extend the match to the
end of the maximal run of class characters, and the match succeeds exactly
when `/submit` occurs in that run at offset at least one. -/

/-- Character class `[^\s<>"]` of the submit-URL pattern. -/
def urlChar (c : Char) : Bool :=
  !pyIsSpace c && c ≠ '<' && c ≠ '>' && c ≠ '"'

/-- Does `/submit` occur at some offset ≥ 1 in the list? -/
def submitInTail : List Char → Bool
  | [] => false
  | _ :: rest => "/submit".toList.isPrefixOf rest || submitInTail rest

/-- Match the submit-URL regex anchored at the start of `cs`, with the greedy
`s?` alternative tried first, returning the matched text. -/
def matchSubmitAt (cs : List Char) : Option (List Char) :=
  if "http".toList.isPrefixOf cs then
    let after4 := cs.drop 4
    let tryFrom : List Char → Nat → Option (List Char) := fun tail schemeLen =>
      if "://".toList.isPrefixOf tail then
        let run := (tail.drop 3).takeWhile urlChar
        if submitInTail run then some (cs.take (schemeLen + 3 + run.length)) else none
      else none
    match after4 with
    | 's' :: t2 =>
      match tryFrom t2 5 with
      | some m => some m
      | none => tryFrom after4 4
    | _ => tryFrom after4 4
  else none

/-- Leftmost-match scan of the submit-URL regex. -/
def findSubmitAux : List Char → Option (List Char)
  | [] => none
  | c :: rest =>
    match matchSubmitAt (c :: rest) with
    | some m => some m
    | none => findSubmitAux rest

/-- Source `re.search(r'https?://[^\s<>"]+/submit[^\s<>"]*', content)` in
`parse_quiz_task`, returning the matched text. -/
def findSubmitUrl (content : String) : Option String :=
  (findSubmitAux content.toList).map String.mk

/-! ### The page-number pattern

`solve_task` extracts an optional page reference with
`re.search(r'page\s+(\d+)', raw_content, re.IGNORECASE)`. -/

/-- Match `page\s+(\d+)` (ignoring case) anchored at the start of the list,
returning the captured number.  `\s+` is greedy and whitespace never overlaps
`\d`, so the match takes the maximal whitespace run and then requires at
least one digit. -/
def matchPageAt : List Char → Option Nat
  | p :: a :: g :: e :: rest =>
    if p.toLower = 'p' && a.toLower = 'a' && g.toLower = 'g' && e.toLower = 'e' then
      let ws := rest.takeWhile pyIsSpace
      if ws.isEmpty then none
      else
        let ds := (rest.drop ws.length).takeWhile Char.isDigit
        if ds.isEmpty then none else some (digitsToNat ds)
    else none
  | _ => none

/-- Leftmost-match scan for the page-number pattern. -/
def parsePageAux : List Char → Option Nat
  | [] => none
  | c :: rest =>
    match matchPageAt (c :: rest) with
    | some n => some n
    | none => parsePageAux rest

/-- Source page-number extraction in `solve_task`:
`int(page_match.group(1))` when the pattern matches, else `None`. -/
def parsePageNum (raw_content : String) : Option Nat :=
  parsePageAux raw_content.toList

/-! ### Data model and collaborator oracles -/

/-- Result of `fetch_quiz_page`: rendered instruction region, full HTML, and
the fetched URL. -/
structure QuizData where
  content : String
  html : String
  url : String
  deriving DecidableEq, Repr

/-- Result of `parse_quiz_task`. -/
structure TaskInfo where
  task_description : String
  raw_content : String
  submit_url : Option String
  file_urls : List String
  html : String
  deriving DecidableEq, Repr

/-- Source `SubmitResponse` model (`src/api/models.py`): the checker's
verdict. -/
structure SubmitResponse where
  correct : Bool
  url : Option String
  reason : Option String
  deriving DecidableEq, Repr

/-- Outcome of the one `httpx` POST in `submit_answer`: a raised transport
exception, or a status code with the body parsed into `SubmitResponse`
(`none` standing for a body Pydantic rejects). -/
inductive PostResult where
  | netError
  | reply (status : Nat) (body : Option SubmitResponse)
  deriving DecidableEq, Repr

/-- Collaborator oracles of one chain run.  Each field stands for one
external call of the source: the browser fetch composite, BeautifulSoup text
and hyperlink extraction, `LLMClient.analyze_text`, `download_file`, PyPDF2
page-text extraction, the pandas/json renderings used by
`DataAnalysisHandler`, and the `httpx` POST. -/
structure Env where
  settings : Settings
  fetchPage : String → Option QuizData
  soupText : String → String
  soupLinks : String → List String
  ask : String → Option String → Option String
  download : String → Option String
  pdfPages : String → Option (List String)
  csvToString : String → Option String
  jsonToString : String → Option String
  post : String → Payload → PostResult

/-! ### Handlers (`src/solver/task_handlers.py`, `src/solver/llm_client.py`) -/

/-- Prompt text assembled by `LLMClient.solve_math_problem` (the `if data:`
guard is Python truthiness, so empty data adds no Data section). -/
def mathPrompt (problem : String) (data : Option String) : String :=
  "Solve this problem and provide ONLY the final answer, no explanation:\n\nProblem: "
    ++ problem ++ "\n"
    ++ (match data with
        | some d => if d ≠ "" then "\nData:\n" ++ d else ""
        | none => "")
    ++ "\n\nProvide only the numerical answer or the exact answer requested, nothing else."

/-- Reply post-processing of `solve_math_problem`: strip the reply, delete
commas, then — if a dot is present — try `float`, else try `int`; on
`ValueError` return the stripped reply as a string. -/
def processMathResponse (resp : String) : PyAnswer :=
  let r := pyStrip resp
  let clean := String.mk (r.toList.filter (fun c => c ≠ ','))
  if pyIn "." clean then
    if pyFloatValid clean then .afloat clean else .astr r
  else
    match pyIntParse clean with
    | some n => .aint n
    | none => .astr r

/-- Source `LLMClient.solve_math_problem`: build the prompt, call
`analyze_text` with no extra context, and post-process the reply inside the
`if response:` guard — Python truthiness, so a `None` reply and an empty
reply both skip the parse block and reach the trailing `return None`. -/
def solve_math_problem (env : Env) (problem : String) (data : Option String) :
    Option PyAnswer :=
  match env.ask (mathPrompt problem data) none with
  | none => none
  | some resp => if resp ≠ "" then some (processMathResponse resp) else none

/-- Python `repr` of a string for the file paths interpolated into the
general handler's context (quote characters inside the modelled paths do not
occur, so no inner escaping arises). -/
def pyReprStr (s : String) : String :=
  String.mk (Char.ofNat 39 :: s.toList ++ [Char.ofNat 39])

/-- Python `str` of a list of strings (`f"{k}: {v}"` formatting of the
`files` context value). -/
def pyReprList (l : List String) : String :=
  "[" ++ String.intercalate ", " (l.map pyReprStr) ++ "]"

/-- Context string built by `GeneralTaskHandler.handle`:
`"\n".join(f"{k}: {v}" for k, v in context.items() if v)` over the dict
`{'task': ..., 'content': ..., 'files': ...}` in insertion order, keeping
only truthy values. -/
def generalContextStr (task content : String) (files : List String) : String :=
  String.intercalate "\n"
    ((if task ≠ "" then ["task: " ++ task] else []) ++
     (if content ≠ "" then ["content: " ++ content] else []) ++
     (if files ≠ [] then ["files: " ++ pyReprList files] else []))

/-- Source `GeneralTaskHandler.handle`: one `analyze_text` call whose reply is
returned unchanged (hence always a string answer). -/
def generalHandle (env : Env) (task_description content : String)
    (files : List String) : Option PyAnswer :=
  let ctx := generalContextStr task_description content files
  (env.ask task_description (if ctx ≠ "" then some ctx else none)).map PyAnswer.astr

/-- Page-extraction operation of `PDFProcessingHandler.handle`: a single
0-based page index, or the concatenation of all pages. -/
inductive PdfOp where
  | single (idx : Int)
  | all
  deriving DecidableEq, Repr

/-- Which extraction the PDF handler performs: `if page_num:` is Python
truthiness, so `None` and `0` both select the all-pages branch; otherwise the
access is `reader.pages[page_num - 1]`. -/
def pdfExtractOp : Option Nat → PdfOp
  | some n => if n ≠ 0 then .single ((n : Int) - 1) else .all
  | none => .all

/-- Python list indexing with negative wraparound; `none` models the
`IndexError` raised when the index is out of range. -/
def pyListGet (l : List String) (i : Int) : Option String :=
  if 0 ≤ i then l.get? i.toNat
  else if -i ≤ (l.length : Int) then l.get? (l.length - (-i).toNat)
  else none

/-- Text produced by the chosen extraction: one page's text, or
`"\n".join(page.extract_text() for page in reader.pages)`. -/
def pdfExtractText (pages : List String) : PdfOp → Option String
  | .single i => pyListGet pages i
  | .all => some (String.intercalate "\n" pages)

/-- Source `PDFProcessingHandler.handle`: read the pages, extract the
requested text, ask the model with the `"PDF Content:"` context. -/
def pdfHandle (env : Env) (task_description pdf_path : String)
    (page_num : Option Nat) : Option PyAnswer :=
  match env.pdfPages pdf_path with
  | none => none
  | some pages =>
    match pdfExtractText pages (pdfExtractOp page_num) with
    | none => none
    | some text =>
      (env.ask task_description (some ("PDF Content:\n" ++ text))).map PyAnswer.astr

/-- Source `DataAnalysisHandler.handle`: render the data file to text
according to its declared type, then delegate to `solve_math_problem`. -/
def analysisHandle (env : Env) (task_description data data_type : String) :
    Option PyAnswer :=
  let dataStr : Option String :=
    if data_type = "csv" then env.csvToString data
    else if data_type = "json" then env.jsonToString data
    else some data
  match dataStr with
  | none => none
  | some ds => solve_math_problem env task_description (some ds)

/-! ### Parsing and dispatch (`QuizSolver.parse_quiz_task` / `solve_task`) -/

/-- Data-file extensions recognized by `parse_quiz_task`, in source order. -/
def dataExts : List String := [".pdf", ".csv", ".json", ".xlsx", ".txt"]

/-- Hyperlink collection of `parse_quiz_task`:
`if any(ext in href for ext in [...]): file_urls.append(href)` over the
hyperlink targets in document order. -/
def collectFileUrls (links : List String) : List String :=
  links.filter (fun href => dataExts.any (fun ext => pyIn ext href))

/-- Prompt of the single `analyze_text` call in `parse_quiz_task`. -/
def extractPrompt : String :=
  "Extract the main question or task from this quiz. Be concise and specific."

/-- Body of `parse_quiz_task`: BeautifulSoup text extraction, submit-URL
regex on the rendered content, hyperlink filtering, and the
`task_description or text_content` fallback (Python `or`: a `None` or empty
reply falls back to the plain text). -/
def parseTask (env : Env) (qd : QuizData) : TaskInfo :=
  let text_content := env.soupText qd.content
  let submit_url := findSubmitUrl qd.content
  let file_urls := collectFileUrls (env.soupLinks qd.content)
  let task_description :=
    match env.ask extractPrompt (some text_content) with
    | some s => if s ≠ "" then s else text_content
    | none => text_content
  ⟨task_description, text_content, submit_url, file_urls, qd.html⟩

/-- Source `parse_quiz_task`; its `try/except` wrapper is retained in the
result type, the body of the model never failing because every collaborator
call is an oracle value. -/
def parse_quiz_task (env : Env) (qd : QuizData) : Option TaskInfo :=
  some (parseTask env qd)

/-- Handler chosen by `solve_task`, with the context values it is given. -/
inductive Dispatch where
  | pdf (pdf_file : String) (page_num : Option Nat)
  | analysis (data : String) (data_type : String)
  | general
  deriving DecidableEq, Repr

/-- Numeric tag of the chosen strategy (used to state determinism of the
selection in the downloaded extensions alone). -/
def Dispatch.tag : Dispatch → Nat
  | .pdf _ _ => 0
  | .analysis _ _ => 1
  | .general => 2

/-- Handler selection of `solve_task`: first the PDF branch (first file
ending in `.pdf`, plus the page-number pattern on the raw text), else the
analysis branch (the FIRST downloaded file `downloaded_files[0]`, tagged
`'csv'` exactly when that first file ends in `.csv`, else `'json'`), else the
general branch. -/
def solveDispatch (raw_content : String) (downloaded : List String) : Dispatch :=
  if !downloaded.isEmpty && downloaded.any (fun f => pyEndsWith f ".pdf") then
    .pdf ((downloaded.find? (fun f => pyEndsWith f ".pdf")).getD "")
      (parsePageNum raw_content)
  else if !downloaded.isEmpty &&
      downloaded.any (fun f => pyEndsWith f ".csv" || pyEndsWith f ".json") then
    .analysis (downloaded.headD "")
      (if pyEndsWith (downloaded.headD "") ".csv" then "csv" else "json")
  else
    .general

/-- Source `solve_task`: download the referenced files (failed downloads are
skipped), select the handler, and run it with the context the source builds
for it. -/
def solve_task (env : Env) (ti : TaskInfo) : Option PyAnswer :=
  let downloaded := ti.file_urls.filterMap env.download
  match solveDispatch ti.raw_content downloaded with
  | .pdf pdf_file page_num => pdfHandle env ti.task_description pdf_file page_num
  | .analysis data data_type => analysisHandle env ti.task_description data data_type
  | .general => generalHandle env ti.task_description ti.raw_content downloaded

/-! ### Submission and the single-quiz pipeline -/

/-- Source `QuizSolver.submit_answer`: build the payload, refuse oversized
payloads before any network call, otherwise POST once and accept exactly a
200 response with a well-formed body.  The second component records the POST
calls actually issued. -/
def submit_answer (env : Env) (submit_url email secret quiz_url : String)
    (answer : PyAnswer) : Option SubmitResponse × List (String × Payload) :=
  let payload : Payload := ⟨email, secret, quiz_url, answer⟩
  if get_payload_size payload > env.settings.max_payload_size then
    (none, [])
  else
    match env.post submit_url payload with
    | .netError => (none, [(submit_url, payload)])
    | .reply status body =>
      if status = 200 then
        match body with
        | some r => (some r, [(submit_url, payload)])
        | none => (none, [(submit_url, payload)])
      else (none, [(submit_url, payload)])

/-- Source `QuizSolver.solve_single_quiz`: fetch, parse, solve, submit; every
stage failure returns `None`; on a submission verdict the result is
`response.url` whatever `response.correct` is.  (The `time_remaining`
parameter of the source is unused by its body and omitted.)  The second
component records the POSTs issued. -/
def solve_single_quiz (env : Env) (quiz_url email secret : String) :
    Option String × List (String × Payload) :=
  match env.fetchPage quiz_url with
  | none => (none, [])
  | some quiz_data =>
    match parse_quiz_task env quiz_data with
    | none => (none, [])
    | some task_info =>
      match solve_task env task_info with
      | none => (none, [])
      | some answer =>
        match task_info.submit_url with
        | none => (none, [])
        | some su =>
          if su = "" then (none, [])
          else
            match submit_answer env su email secret quiz_url answer with
            | (some response, evs) => (response.url, evs)
            | (none, evs) => (none, evs)

/-! ### Timer and the chain loop -/

/-- Source `Timer` (`src/utils/helpers.py`).  Wall-clock instants are
rationals; `start_time`/`end_time` are `None` until set. -/
structure Timer where
  timeout_seconds : ℚ
  start_time : Option ℚ := none
  end_time : Option ℚ := none
  deriving DecidableEq, Repr

/-- Source `Timer.elapsed`, with the current wall-clock instant passed
explicitly: `0.0` before the timer starts; otherwise measured to `end_time`
when that is set and truthy (Python `if self.end_time:` — `0.0` is falsy),
else to now. -/
def Timer.elapsed (t : Timer) (now : ℚ) : ℚ :=
  match t.start_time with
  | none => 0
  | some s =>
    (match t.end_time with
     | some e => if e ≠ 0 then e else now
     | none => now) - s

/-- Source `Timer.is_timeout`: `elapsed() >= timeout_seconds`. -/
def Timer.is_timeout (t : Timer) (now : ℚ) : Bool :=
  decide (t.elapsed now ≥ t.timeout_seconds)

/-- Source `Timer.remaining`: `max(0.0, timeout_seconds - elapsed())`. -/
def Timer.remaining (t : Timer) (now : ℚ) : ℚ :=
  max 0 (t.timeout_seconds - t.elapsed now)

/-- How one chain run ended: the loop condition saw a falsy URL or the last
iteration produced no next URL (`complete`), the budget was already expired
at a loop head (`timeoutHead`), or the step bound ran out (`fuelOut`). -/
inductive ChainExit where
  | complete
  | timeoutHead
  | fuelOut
  deriving DecidableEq, Repr

/-- Loop of `solve_quiz_chain`
(`while current_url and not timer.is_timeout(): ...`), unrolled on explicit
fuel.  `nowAt k` is the wall-clock instant at the head of iteration `k`; one
whole iteration (`solve_single_quiz`) is a single uninterruptible step, as in
the source, where the budget is consulted only at the loop head.  Returns the
iterations actually started (index and URL) and how the loop exited. -/
def solve_quiz_chain_aux (env : Env) (email secret : String) (timer : Timer)
    (nowAt : Nat → ℚ) : Nat → Nat → String → List (Nat × String) × ChainExit
  | 0, _, _ => ([], .fuelOut)
  | fuel + 1, k, current_url =>
    if current_url = "" then ([], .complete)
    else if timer.is_timeout (nowAt k) then ([], .timeoutHead)
    else
      match (solve_single_quiz env current_url email secret).1 with
      | some next_url =>
        if next_url ≠ "" then
          let res := solve_quiz_chain_aux env email secret timer nowAt fuel (k + 1) next_url
          ((k, current_url) :: res.1, res.2)
        else ([(k, current_url)], .complete)
      | none => ([(k, current_url)], .complete)

/-- Source `solve_quiz_chain`: a fresh `Timer` started at `t0` with the
configured timeout drives the loop from the initial URL. -/
def solve_quiz_chain (env : Env) (initial_url email secret : String) (t0 : ℚ)
    (nowAt : Nat → ℚ) (fuel : Nat) : List (Nat × String) × ChainExit :=
  solve_quiz_chain_aux env email secret
    ⟨(env.settings.timeout_seconds : ℚ), some t0, none⟩ nowAt fuel 0 initial_url

/-! ### Concrete environments used by the witnesses -/

/-- Baseline environment in which every collaborator fails or returns
nothing; the witnesses override the fields they need. -/
def trivEnv : Env where
  settings := {}
  fetchPage := fun _ => none
  soupText := fun s => s
  soupLinks := fun _ => []
  ask := fun _ _ => none
  download := fun _ => none
  pdfPages := fun _ => none
  csvToString := fun _ => none
  jsonToString := fun _ => none
  post := fun _ _ => .netError

/-! ### Helper lemmas -/

/-- Boolean prefix test characterized by an append decomposition. -/
theorem isPrefixOf_iff_exists_append (n h : List Char) :
    n.isPrefixOf h = true ↔ ∃ t, n ++ t = h := by
  induction n generalizing h with
  | nil => simp [List.isPrefixOf]
  | cons a as ih =>
    cases h with
    | nil => simp [List.isPrefixOf]
    | cons b bs =>
      simp only [List.isPrefixOf, Bool.and_eq_true, beq_iff_eq, ih, List.cons_append,
        List.cons.injEq]
      constructor
      · rintro ⟨rfl, t, rfl⟩; exact ⟨t, rfl, rfl⟩
      · rintro ⟨t, rfl, rfl⟩; exact ⟨rfl, t, rfl⟩

/-- Substring containment (`listContainsSub`) characterized by a
decomposition into a preceding and a following part. -/
theorem listContainsSub_iff (n h : List Char) :
    listContainsSub n h = true ↔ ∃ pre post, pre ++ n ++ post = h := by
  induction h with
  | nil =>
    simp only [listContainsSub, List.isEmpty_iff]
    constructor
    · rintro rfl; exact ⟨[], [], rfl⟩
    · rintro ⟨pre, post, hp⟩
      rcases List.append_eq_nil.mp hp with ⟨h1, -⟩
      exact (List.append_eq_nil.mp h1).2
  | cons c rest ih =>
    simp only [listContainsSub, Bool.or_eq_true, isPrefixOf_iff_exists_append, ih]
    constructor
    · rintro (⟨t, ht⟩ | ⟨pre, post, hp⟩)
      · exact ⟨[], t, by simpa using ht⟩
      · exact ⟨c :: pre, post, by simp [hp]⟩
    · rintro ⟨pre, post, hp⟩
      cases pre with
      | nil => exact Or.inl ⟨post, by simpa using hp⟩
      | cons p ps =>
        rcases List.cons.injEq .. ▸ hp with ⟨rfl, h2⟩
        exact Or.inr ⟨ps, post, h2⟩

/-- A started timer's timeout test compares elapsed wall-clock time with the
budget. -/
theorem started_is_timeout (T t0 now : ℚ) :
    (Timer.mk T (some t0) none).is_timeout now = decide (T ≤ now - t0) := by
  simp [Timer.is_timeout, Timer.elapsed, ge_iff_le]

/-! ### C8 — Timer invariants -/

/-- C8: for every started timer, `remaining()` equals
`max(0, timeout_seconds - elapsed)` and is never negative, `remaining()` is
monotonically non-increasing as wall-clock time advances, and `is_timeout()`
holds exactly when `remaining()` is zero.  Both operations are pure functions
of the timer value and the clock instant, so neither mutates the timer. -/
theorem c8_timer_invariants (t : Timer) (s : ℚ)
    (h_start : t.start_time = some s) (h_end : t.end_time = none) :
    (∀ now, t.remaining now = max 0 (t.timeout_seconds - t.elapsed now)) ∧
    (∀ now, 0 ≤ t.remaining now) ∧
    (∀ n1 n2 : ℚ, n1 ≤ n2 → t.remaining n2 ≤ t.remaining n1) ∧
    (∀ now, t.is_timeout now = true ↔ t.remaining now = 0) := by
  have helapsed : ∀ now : ℚ, t.elapsed now = now - s := by
    intro now; simp [Timer.elapsed, h_start, h_end]
  refine ⟨fun now => rfl, fun now => le_max_left _ _, ?_, ?_⟩
  · intro n1 n2 h
    simp only [Timer.remaining, helapsed]
    exact max_le_max le_rfl (by linarith)
  · intro now
    simp only [Timer.is_timeout, Timer.remaining, helapsed, ge_iff_le,
      decide_eq_true_eq]
    constructor
    · intro h; exact max_eq_left (by linarith)
    · intro h
      have hle := le_max_right (0 : ℚ) (t.timeout_seconds - (now - s))
      rw [h] at hle
      linarith

/-- Witness for C8 at a concrete started timer and clock instants. -/
theorem c8_timer_invariants_witness :
    (0 : ℚ) ≤ (Timer.mk 180 (some 0) none).remaining 10 ∧
    ((Timer.mk 180 (some 0) none).is_timeout 200 = true ↔
      (Timer.mk 180 (some 0) none).remaining 200 = 0) :=
  ⟨(c8_timer_invariants (Timer.mk 180 (some 0) none) 0 rfl rfl).2.1 10,
   (c8_timer_invariants (Timer.mk 180 (some 0) none) 0 rfl rfl).2.2.2 200⟩

/-! ### C3 — payload-size guard -/

/-- C3: a submission payload whose JSON-serialized UTF-8 byte length exceeds
the configured ceiling (default 1 048 576 bytes) makes `submit_answer` return
failure with no verdict and an empty list of issued POSTs — the guard fires
before any network I/O. -/
theorem c3_payload_guard (env : Env) (submit_url email secret quiz_url : String)
    (answer : PyAnswer)
    (h : get_payload_size ⟨email, secret, quiz_url, answer⟩ >
      env.settings.max_payload_size) :
    defaultSettings.max_payload_size = 1048576 ∧
    submit_answer env submit_url email secret quiz_url answer = (none, []) := by
  refine ⟨rfl, ?_⟩
  simp only [submit_answer]
  rw [if_pos h]

/-- Witness for C3: with a ceiling of one byte, a small concrete payload is
rejected with no POST issued. -/
theorem c3_payload_guard_witness :
    submit_answer { trivEnv with settings := ⟨180, 1⟩ } "http://h/submit" "e" "s" "u"
      (PyAnswer.astr "5") = (none, []) :=
  (c3_payload_guard { trivEnv with settings := ⟨180, 1⟩ } "http://h/submit" "e" "s" "u"
    (PyAnswer.astr "5") (by decide)).2

/-! ### C4 — tabular dispatch hands over the first downloaded file -/

/-- C4 counterexample: for the downloaded list `["a.txt", "b.csv"]` (no PDF,
one CSV) the analysis strategy receives the file `"a.txt"`, which has neither
a `.csv` nor a `.json` extension, tagged `"json"` — refuting the claim that
the data file handed over has a `.csv`/`.json` extension matching its tag. -/
theorem c4_counterexample :
    solveDispatch "" ["a.txt", "b.csv"] = .analysis "a.txt" "json" ∧
    pyEndsWith "a.txt" ".csv" = false ∧ pyEndsWith "a.txt" ".json" = false := by
  decide

/-- C4 amended: for a downloaded-file list with no `.pdf` file and some
`.csv`/`.json` file, the analysis strategy is selected, but the data file it
receives is the FIRST downloaded file whatever its extension, tagged `"csv"`
exactly when that first file ends in `.csv` and `"json"` otherwise; the
strategy choice is deterministic in the extension predicates of the
downloaded list. -/
theorem c4_tabular_uses_first_downloaded_file (raw : String) (f : String)
    (rest : List String)
    (h_nopdf : (f :: rest).any (fun x => pyEndsWith x ".pdf") = false)
    (h_some : (f :: rest).any
      (fun x => pyEndsWith x ".csv" || pyEndsWith x ".json") = true) :
    solveDispatch raw (f :: rest) =
      .analysis f (if pyEndsWith f ".csv" then "csv" else "json") ∧
    (∀ raw1 raw2 (l1 l2 : List String),
      l1.isEmpty = l2.isEmpty →
      l1.any (fun x => pyEndsWith x ".pdf") = l2.any (fun x => pyEndsWith x ".pdf") →
      l1.any (fun x => pyEndsWith x ".csv" || pyEndsWith x ".json")
        = l2.any (fun x => pyEndsWith x ".csv" || pyEndsWith x ".json") →
      (solveDispatch raw1 l1).tag = (solveDispatch raw2 l2).tag) := by
  constructor
  · simp [solveDispatch, h_nopdf, h_some]
  · intro raw1 raw2 l1 l2 he hp hc
    simp only [solveDispatch, he, hp, hc]
    cases h1 : (!l2.isEmpty && l2.any fun x => pyEndsWith x ".pdf") with
    | true => simp [h1, Dispatch.tag]
    | false =>
      cases h2 : (!l2.isEmpty &&
          l2.any fun x => pyEndsWith x ".csv" || pyEndsWith x ".json") with
      | true => simp [h1, h2, Dispatch.tag]
      | false => simp [h1, h2, Dispatch.tag]

/-- Witness for C4 (amended) at the concrete list `["a.txt", "b.csv"]`. -/
theorem c4_tabular_witness :
    solveDispatch "q" ["a.txt", "b.csv"] = .analysis "a.txt" "json" :=
  (c4_tabular_uses_first_downloaded_file "q" "a.txt" ["b.csv"] (by decide)
    (by decide)).1.trans (by decide)

/-! ### C5 — file-URL collection is a substring filter, not a suffix filter -/

/-- C5 counterexample: the hyperlink target `"http://a/b.pdf?x=1"` does not
end in any of the five data-file extensions, yet `parse_quiz_task` collects
it (the source tests `ext in href`, substring containment, not `endswith`). -/
theorem c5_counterexample :
    collectFileUrls ["http://a/b.pdf?x=1"] = ["http://a/b.pdf?x=1"] ∧
    dataExts.all (fun e => !pyEndsWith "http://a/b.pdf?x=1" e) = true := by
  decide

/-- C5 amended: `parse_quiz_task` collects, in document order, exactly those
hyperlink targets that CONTAIN one of `.pdf`, `.csv`, `.json`, `.xlsx`,
`.txt` as a substring (a target merely containing an extension mid-string is
also collected). -/
theorem c5_file_urls_substring_filter (links : List String) :
    List.Sublist (collectFileUrls links) links ∧
    (∀ h, h ∈ collectFileUrls links ↔
      h ∈ links ∧ ∃ e ∈ dataExts, ∃ pre post, pre ++ e.toList ++ post = h.toList) ∧
    (∀ env qd, (parseTask env qd).file_urls = collectFileUrls (env.soupLinks qd.content)) := by
  refine ⟨List.filter_sublist _, ?_, fun env qd => rfl⟩
  intro h
  rw [collectFileUrls, List.mem_filter, List.any_eq_true]
  constructor
  · rintro ⟨hmem, e, he, hin⟩
    exact ⟨hmem, e, he, (listContainsSub_iff _ _).mp hin⟩
  · rintro ⟨hmem, e, he, hdec⟩
    exact ⟨hmem, e, he, (listContainsSub_iff _ _).mpr hdec⟩

/-! ### C10 — page 0 is treated as no page reference -/

/-- C10: a raw text matching `"page 0"` yields the parsed page number `0`,
which the PDF handler treats like no page reference: it concatenates all
pages, never performs the wraparound access `reader.pages[0 - 1]` (index
`-1`), and a single-page restriction happens only for parsed page numbers of
one or greater. -/
theorem c10_page_zero_not_restricted (raw : String) (pages : List String)
    (env : Env) (desc path : String)
    (h0 : parsePageNum raw = some 0) (hp : env.pdfPages path = some pages) :
    pdfExtractOp (parsePageNum raw) = .all ∧
    pdfHandle env desc path (parsePageNum raw)
      = (env.ask desc (some ("PDF Content:\n" ++ String.intercalate "\n" pages))).map
        PyAnswer.astr ∧
    (∀ pn, pdfExtractOp pn ≠ .single (-1)) ∧
    (∀ pn i, pdfExtractOp pn = .single i →
      ∃ n, pn = some n ∧ 1 ≤ n ∧ i = (n : Int) - 1) := by
  refine ⟨?_, ?_, ?_, ?_⟩
  · rw [h0]; rfl
  · rw [h0]; simp [pdfHandle, hp, pdfExtractOp, pdfExtractText]
  · intro pn
    cases pn with
    | none => simp [pdfExtractOp]
    | some n =>
      by_cases hn : n = 0
      · subst hn; simp [pdfExtractOp]
      · simp only [pdfExtractOp, if_pos (show n ≠ 0 from hn), ne_eq,
          PdfOp.single.injEq]
        omega
  · intro pn i hop
    cases pn with
    | none => simp [pdfExtractOp] at hop
    | some n =>
      by_cases hn : n = 0
      · subst hn; simp [pdfExtractOp] at hop
      · simp only [pdfExtractOp, if_pos (show n ≠ 0 from hn),
          PdfOp.single.injEq] at hop
        exact ⟨n, rfl, by omega, hop.symm⟩

/-- Concrete environment for the C10 witness: a two-page PDF and a constant
model reply. -/
def c10env : Env :=
  { trivEnv with
      pdfPages := fun _ => some ["alpha", "beta"],
      ask := fun _ _ => some "ok" }

/-- Witness for C10 at the raw text `"page 0"` and a concrete two-page
PDF. -/
theorem c10_page_zero_witness :
    pdfExtractOp (parsePageNum "page 0") = .all ∧
    pdfHandle c10env "d" "r.pdf" (parsePageNum "page 0")
      = some (PyAnswer.astr "ok") := by
  have h := c10_page_zero_not_restricted "page 0" ["alpha", "beta"] c10env "d" "r.pdf"
    (by decide) rfl
  refine ⟨h.1, ?_⟩
  rw [h.2.1]
  rfl

/-! ### C9 — PDF priority holds; page restriction only for numbers ≥ 1 -/

/-- C9 counterexample: the raw text `"see page 0"` matches the `page N`
pattern (parsed number `0`) and routes to the PDF strategy, yet the handler
performs the all-pages concatenation, not a single-page restriction —
refuting the claim that any `page N` match restricts extraction. -/
theorem c9_counterexample :
    parsePageNum "see page 0" = some 0 ∧
    solveDispatch "see page 0" ["r.pdf"] = .pdf "r.pdf" (some 0) ∧
    pdfExtractOp (some 0) = PdfOp.all := by
  decide

/-- C9 amended: whenever a downloaded file ends in `.pdf`, the PDF strategy
is selected with the first such file (taking priority over the tabular and
catch-all strategies), and the parsed `page N` reference restricts extraction
to the single 1-based page `N` (0-based index `N - 1`) exactly when `N ≥ 1` —
for `"see page 2"`, page number 2 (index 1); with no match, or the match
`"page 0"`, all pages are concatenated. -/
theorem c9_pdf_priority_and_page_restriction (raw : String)
    (downloaded : List String)
    (h_pdf : downloaded.any (fun f => pyEndsWith f ".pdf") = true) :
    (∃ f, downloaded.find? (fun x => pyEndsWith x ".pdf") = some f ∧
      pyEndsWith f ".pdf" = true ∧ f ∈ downloaded ∧
      solveDispatch raw downloaded = .pdf f (parsePageNum raw)) ∧
    (∀ n, parsePageNum raw = some n → 1 ≤ n →
      pdfExtractOp (parsePageNum raw) = .single ((n : Int) - 1)) ∧
    (parsePageNum raw = none → pdfExtractOp (parsePageNum raw) = .all) ∧
    (parsePageNum "see page 2" = some 2 ∧ pdfExtractOp (some 2) = .single 1) := by
  refine ⟨?_, ?_, ?_, by decide⟩
  · have hne : downloaded ≠ [] := by
      rcases List.any_eq_true.mp h_pdf with ⟨x, hx, -⟩
      exact List.ne_nil_of_mem hx
    have hfind : (downloaded.find? (fun x => pyEndsWith x ".pdf")).isSome := by
      rw [List.find?_isSome]
      simpa using List.any_eq_true.mp h_pdf
    rcases Option.isSome_iff_exists.mp hfind with ⟨f, hf⟩
    have hpf : pyEndsWith f ".pdf" = true := by
      have hps := List.find?_some hf
      simpa using hps
    refine ⟨f, hf, hpf, List.mem_of_find?_eq_some hf, ?_⟩
    have hempty : downloaded.isEmpty = false := by
      simpa [List.isEmpty_iff] using hne
    simp [solveDispatch, hempty, h_pdf, hf]
  · intro n hn h1
    rw [hn]
    have hne : n ≠ 0 := by omega
    simp [pdfExtractOp, hne]
  · intro hn; rw [hn]; rfl

/-- Witness for C9 (amended): Scenario B — a CSV and a PDF downloaded, task
text `"see page 2"` — selects the PDF strategy with page number 2. -/
theorem c9_pdf_priority_witness :
    solveDispatch "see page 2" ["b.csv", "r.pdf"] = .pdf "r.pdf" (some 2) := by
  obtain ⟨⟨f, hfind, -, -, hdisp⟩, -, -, hp2, -⟩ :=
    c9_pdf_priority_and_page_restriction "see page 2" ["b.csv", "r.pdf"] (by decide)
  have hf : f = "r.pdf" := by
    have hconc : (["b.csv", "r.pdf"].find? fun x => pyEndsWith x ".pdf")
        = some "r.pdf" := by decide
    rw [hconc] at hfind
    exact (Option.some.inj hfind).symm
  rw [hdisp, hf, hp2]

/-! ### C6 — only the math path produces numeric answers -/

/-- Concrete environment for C6: the model always replies `"5"` and the
checker accepts. -/
def c6env : Env :=
  { trivEnv with
      ask := fun _ _ => some "5",
      post := fun _ _ => .reply 200 (some ⟨true, none, none⟩) }

/-- C6 counterexample: the catch-all handler returns its numeric-looking
reply `"5"` unchanged as a string answer, and the submission payload then
serializes it as the quoted JSON string `"5"`, not the integer `5` —
refuting the claim that any cleanly numeric reply is submitted as a numeric
JSON value. -/
theorem c6_counterexample :
    generalHandle c6env "What is 2+3?" "raw" [] = some (PyAnswer.astr "5") ∧
    (submit_answer c6env "http://h/submit" "e" "s" "u" (PyAnswer.astr "5")).2
      = [("http://h/submit", ⟨"e", "s", "u", PyAnswer.astr "5"⟩)] ∧
    payloadDumps ⟨"e", "s", "u", PyAnswer.astr "5"⟩ =
      ("\x7b\"email\": \"e\", \"secret\": \"s\", \"url\": \"u\", \"answer\": \"5\"\x7d").toList ∧
    PyAnswer.astr "5" ≠ PyAnswer.aint 5 := by
  decide

/-- C6 amended: numeric parsing of replies happens only on the data-analysis
path: when `solve_math_problem`'s cleaned reply (stripped, commas removed)
contains no dot and parses as a Python int, the produced answer is that
integer — a numeric JSON value in the payload; the catch-all handler always
submits the model's reply verbatim as a string, so its reply `"5"` is
submitted as the string `"5"`. -/
theorem c6_math_numeric_general_string (env : Env) (problem ds resp : String)
    (n : Int)
    (h_ask : env.ask (mathPrompt problem (some ds)) none = some resp)
    (h_nodot : pyIn "."
      (String.mk ((pyStrip resp).toList.filter (fun c => c ≠ ','))) = false)
    (h_int : pyIntParse
      (String.mk ((pyStrip resp).toList.filter (fun c => c ≠ ','))) = some n) :
    solve_math_problem env problem (some ds) = some (PyAnswer.aint n) ∧
    (∀ desc content files r,
      env.ask desc
        (if generalContextStr desc content files ≠ ""
         then some (generalContextStr desc content files) else none) = some r →
      generalHandle env desc content files = some (PyAnswer.astr r)) := by
  constructor
  · have hnone : pyIntParse
        (String.mk ((pyStrip "").toList.filter (fun c => c ≠ ','))) = none := by
      decide
    have hresp : resp ≠ "" := by
      intro hempty
      rw [hempty, hnone] at h_int
      exact Option.noConfusion h_int
    simp only [solve_math_problem, h_ask]
    rw [if_pos hresp]
    simp only [processMathResponse, h_nodot, Bool.false_eq_true, if_false, h_int]
  · intro desc content files r hr
    simp only [generalHandle, hr]
    rfl

/-- Witness for C6 (amended): the math path turns the reply `"5"` into the
integer answer 5. -/
theorem c6_math_numeric_witness :
    solve_math_problem c6env "What is 2+3?" (some "data") = some (PyAnswer.aint 5) :=
  (c6_math_numeric_general_string c6env "What is 2+3?" "data" "5" 5 rfl (by decide)
    (by decide)).1

/-! ### Chain-loop helper lemmas -/

/-- The `submit_url` field produced by `parse_quiz_task` is the submit-URL
regex result on the rendered content. -/
theorem parseTask_submit_url (env : Env) (qd : QuizData) :
    (parseTask env qd).submit_url = findSubmitUrl qd.content := rfl

/-- Every iteration the chain loop actually starts saw an unexpired timer at
its loop head. -/
theorem chainAux_mem_not_timeout (env : Env) (email secret : String)
    (T t0 : ℚ) (nowAt : Nat → ℚ) :
    ∀ fuel k url p,
      p ∈ (solve_quiz_chain_aux env email secret ⟨T, some t0, none⟩ nowAt fuel k url).1 →
      nowAt p.1 - t0 < T := by
  intro fuel
  induction fuel with
  | zero =>
    intro k url p hp
    simp [solve_quiz_chain_aux] at hp
  | succ m ih =>
    intro k url p hp
    rw [solve_quiz_chain_aux] at hp
    by_cases hurl : url = ""
    · simp [hurl] at hp
    · cases htb : (Timer.mk T (some t0) none).is_timeout (nowAt k) with
      | true => simp [hurl, htb] at hp
      | false =>
        have htlt : nowAt k - t0 < T := by
          have hdec := htb
          rw [started_is_timeout] at hdec
          exact lt_of_not_le (of_decide_eq_false hdec)
        simp only [if_neg hurl, htb, Bool.false_eq_true, if_false] at hp
        cases hnext : (solve_single_quiz env url email secret).1 with
        | none =>
          rw [hnext] at hp
          simp at hp
          subst hp
          exact htlt
        | some next =>
          rw [hnext] at hp
          by_cases hne : next = ""
          · simp [hne] at hp
            subst hp
            exact htlt
          · simp only [if_pos (show next ≠ "" from hne), List.mem_cons] at hp
            rcases hp with rfl | hp
            · exact htlt
            · exact ih (k + 1) next p hp

/-- The submit-URL scan returns the match at the leftmost matching start
position: positions before it do not match. -/
theorem findSubmitAux_leftmost :
    ∀ cs m, findSubmitAux cs = some m →
      ∃ i, matchSubmitAt (List.drop i cs) = some m ∧
        ∀ j < i, matchSubmitAt (List.drop j cs) = none := by
  intro cs
  induction cs with
  | nil =>
    intro m hm
    simp [findSubmitAux] at hm
  | cons c rest ih =>
    intro m hm
    cases hmatch : matchSubmitAt (c :: rest) with
    | some m0 =>
      simp only [findSubmitAux, hmatch, Option.some.injEq] at hm
      refine ⟨0, ?_, fun j hj => absurd hj (Nat.not_lt_zero j)⟩
      rw [List.drop_zero, hmatch, hm]
    | none =>
      simp only [findSubmitAux, hmatch] at hm
      rcases ih m hm with ⟨i, hi, hbefore⟩
      refine ⟨i + 1, by simpa using hi, ?_⟩
      intro j hj
      cases j with
      | zero => simpa using hmatch
      | succ j0 =>
        have hb := hbefore j0 (Nat.lt_of_succ_lt_succ hj)
        simpa using hb

/-! ### C2 — budget checked only at iteration boundaries -/

/-- C2: the chain loop consults the time budget only at loop heads: every
iteration it starts saw an unexpired timer at its head; an expired timer at a
loop head with a live URL ends the chain at `timeoutHead` with no further
iteration; with a monotone clock, no iteration at or after an expired instant
ever runs; and an iteration already started runs to completion — its result
still steers the loop — even when the budget expires during it, after which
the next loop head stops at `timeoutHead` (Scenario E). -/
theorem c2_budget_checked_at_iteration_boundaries (env : Env)
    (email secret : String) (T t0 : ℚ) (nowAt : Nat → ℚ) (fuel k : Nat)
    (url : String) :
    (∀ p ∈ (solve_quiz_chain_aux env email secret ⟨T, some t0, none⟩ nowAt fuel k url).1,
        nowAt p.1 - t0 < T) ∧
    (url ≠ "" → 0 < fuel → T ≤ nowAt k - t0 →
        solve_quiz_chain_aux env email secret ⟨T, some t0, none⟩ nowAt fuel k url
          = ([], .timeoutHead)) ∧
    ((∀ i j : Nat, i ≤ j → nowAt i ≤ nowAt j) → ∀ k0, T ≤ nowAt k0 - t0 →
        ∀ p ∈ (solve_quiz_chain_aux env email secret ⟨T, some t0, none⟩ nowAt fuel k url).1,
          p.1 < k0) ∧
    (url ≠ "" → nowAt k - t0 < T → T ≤ nowAt (k + 1) - t0 →
        ∀ next, (solve_single_quiz env url email secret).1 = some next → next ≠ "" →
        solve_quiz_chain_aux env email secret ⟨T, some t0, none⟩ nowAt (fuel + 2) k url
          = ([(k, url)], .timeoutHead)) := by
  refine ⟨fun p hp => chainAux_mem_not_timeout env email secret T t0 nowAt fuel k url p hp,
    ?_, ?_, ?_⟩
  · intro hurl hfuel ht
    cases fuel with
    | zero => exact absurd hfuel (lt_irrefl 0)
    | succ m =>
      rw [solve_quiz_chain_aux, if_neg hurl, started_is_timeout, decide_eq_true ht]
      rfl
  · intro hmono k0 hk0 p hp
    have h1 := chainAux_mem_not_timeout env email secret T t0 nowAt fuel k url p hp
    by_contra hge
    have hk0le : k0 ≤ p.1 := Nat.le_of_not_lt hge
    have := hmono k0 p.1 hk0le
    linarith
  · intro hurl hlt hge next hnext hne
    have htf : (Timer.mk T (some t0) none).is_timeout (nowAt k) = false := by
      rw [started_is_timeout]
      exact decide_eq_false (not_le.mpr hlt)
    have htt : (Timer.mk T (some t0) none).is_timeout (nowAt (k + 1)) = true := by
      rw [started_is_timeout]
      exact decide_eq_true hge
    show solve_quiz_chain_aux env email secret ⟨T, some t0, none⟩ nowAt (fuel + 1 + 1) k url
      = ([(k, url)], .timeoutHead)
    rw [solve_quiz_chain_aux, if_neg hurl, htf]
    simp only [Bool.false_eq_true, if_false, hnext, if_pos (show next ≠ "" from hne)]
    rw [solve_quiz_chain_aux, if_neg hne, htt]
    rfl

/-- Witness for C2: with a one-second budget and the clock already at five
seconds, the loop head stops the chain at `timeoutHead` without starting an
iteration. -/
theorem c2_budget_witness :
    solve_quiz_chain_aux trivEnv "e" "s" ⟨1, some 0, none⟩ (fun _ => 5) 3 0 "http://q"
      = ([], .timeoutHead) :=
  (c2_budget_checked_at_iteration_boundaries trivEnv "e" "s" 1 0 (fun _ => 5) 3 0
    "http://q").2.1 (by decide) (by decide) (by norm_num)

/-! ### C1 — the chain continues exactly on a non-empty verdict URL -/

/-- C1: on a completed submission the iteration's result is exactly the
verdict's `url` field — independent of `correct` — and the chain restarts at
fetch with that URL exactly when it is present and non-empty; an absent or
null (or empty) `url` ends the chain as complete even on an incorrect
verdict, so an incorrect verdict alone never retries the same URL. -/
theorem c1_chain_continues_iff_url_nonempty (env : Env)
    (quiz_url email secret : String) (qd : QuizData) (su : String)
    (ans : PyAnswer) (v : SubmitResponse)
    (h_fetch : env.fetchPage quiz_url = some qd)
    (h_su : findSubmitUrl qd.content = some su) (h_su_ne : su ≠ "")
    (h_solve : solve_task env (parseTask env qd) = some ans)
    (h_size : get_payload_size ⟨email, secret, quiz_url, ans⟩ ≤
      env.settings.max_payload_size)
    (h_post : env.post su ⟨email, secret, quiz_url, ans⟩ = .reply 200 (some v)) :
    solve_single_quiz env quiz_url email secret
      = (v.url, [(su, ⟨email, secret, quiz_url, ans⟩)]) ∧
    (∀ T t0 (nowAt : Nat → ℚ) fuel k, quiz_url ≠ "" →
      (Timer.mk T (some t0) none).is_timeout (nowAt k) = false →
      ((v.url = none ∨ v.url = some "") →
        solve_quiz_chain_aux env email secret ⟨T, some t0, none⟩ nowAt (fuel + 1) k quiz_url
          = ([(k, quiz_url)], .complete)) ∧
      (∀ u, v.url = some u → u ≠ "" →
        solve_quiz_chain_aux env email secret ⟨T, some t0, none⟩ nowAt (fuel + 1) k quiz_url
          = ((k, quiz_url) ::
              (solve_quiz_chain_aux env email secret ⟨T, some t0, none⟩ nowAt fuel (k + 1) u).1,
            (solve_quiz_chain_aux env email secret ⟨T, some t0, none⟩ nowAt fuel (k + 1) u).2))) := by
  have h1 : solve_single_quiz env quiz_url email secret
      = (v.url, [(su, ⟨email, secret, quiz_url, ans⟩)]) := by
    rw [solve_single_quiz, h_fetch]
    simp only [parse_quiz_task, h_solve, parseTask_submit_url, h_su]
    rw [if_neg h_su_ne]
    simp only [submit_answer]
    rw [if_neg (not_lt.mpr h_size), h_post]
    rfl
  have hfst : (solve_single_quiz env quiz_url email secret).1 = v.url := by
    rw [h1]
  refine ⟨h1, ?_⟩
  intro T t0 nowAt fuel k hq ht
  constructor
  · rintro (hnone | hempty)
    · rw [solve_quiz_chain_aux, if_neg hq, ht]
      simp only [Bool.false_eq_true, if_false, hfst, hnone]
    · rw [solve_quiz_chain_aux, if_neg hq, ht]
      simp only [Bool.false_eq_true, if_false, hfst, hempty, ne_eq,
        not_true_eq_false, if_false]
  · intro u hu hune
    rw [solve_quiz_chain_aux, if_neg hq, ht]
    simp only [Bool.false_eq_true, if_false, hfst, hu,
      if_pos (show u ≠ "" from hune)]

/-- Rendered content of the C1 witness page. -/
def c1content : String := "What is 2+3? http://h/submit?t=1 end"

/-- Concrete environment for the C1 witness: a page whose content holds a
submit URL, a model that always replies `"5"`, and a checker that returns
Scenario C's verdict (incorrect, no next URL). -/
def c1env : Env :=
  { trivEnv with
      fetchPage := fun u => some ⟨c1content, "", u⟩,
      ask := fun _ _ => some "5",
      post := fun _ _ => .reply 200 (some ⟨false, none, some "too high"⟩) }

/-- Witness for C1: Scenario C — the verdict is incorrect with a null `url`,
and the chain stops as complete after the single iteration. -/
theorem c1_chain_witness :
    solve_single_quiz c1env "http://q/1" "e@x" "sec"
      = (none, [("http://h/submit?t=1", ⟨"e@x", "sec", "http://q/1", PyAnswer.astr "5"⟩)]) ∧
    solve_quiz_chain_aux c1env "e@x" "sec" ⟨180, some 0, none⟩ (fun _ => 0) 2 0 "http://q/1"
      = ([(0, "http://q/1")], .complete) := by
  have h := c1_chain_continues_iff_url_nonempty c1env "http://q/1" "e@x" "sec"
    ⟨c1content, "", "http://q/1"⟩ "http://h/submit?t=1" (PyAnswer.astr "5")
    ⟨false, none, some "too high"⟩ rfl (by decide) (by decide) (by decide) (by decide) rfl
  exact ⟨h.1, (h.2 180 0 (fun _ => 0) 1 0 (by decide)
    (by rw [started_is_timeout]; exact decide_eq_false (by norm_num))).1 (Or.inl rfl)⟩

/-! ### C7 — a missing submit URL fails the iteration with no submission -/

/-- C7: `parse_quiz_task` sets the submit URL to the leftmost substring of
the rendered content matching the `/submit` URL pattern (earlier start
positions do not match); when no match exists the submit URL is `none`, the
iteration returns no next URL and issues no POST, and the chain loop ends as
complete after that iteration. -/
theorem c7_no_submit_url_fails_iteration (env : Env)
    (quiz_url email secret : String) (qd : QuizData)
    (h_fetch : env.fetchPage quiz_url = some qd)
    (h_none : findSubmitUrl qd.content = none) :
    (parseTask env qd).submit_url = none ∧
    solve_single_quiz env quiz_url email secret = (none, []) ∧
    (∀ cs m, findSubmitAux cs = some m →
      ∃ i, matchSubmitAt (List.drop i cs) = some m ∧
        ∀ j < i, matchSubmitAt (List.drop j cs) = none) ∧
    (∀ T t0 (nowAt : Nat → ℚ) fuel k, quiz_url ≠ "" →
      (Timer.mk T (some t0) none).is_timeout (nowAt k) = false →
      solve_quiz_chain_aux env email secret ⟨T, some t0, none⟩ nowAt (fuel + 1) k quiz_url
        = ([(k, quiz_url)], .complete)) := by
  have hsub : (parseTask env qd).submit_url = none := by
    rw [parseTask_submit_url, h_none]
  have hsingle : solve_single_quiz env quiz_url email secret = (none, []) := by
    rw [solve_single_quiz, h_fetch]
    simp only [parse_quiz_task]
    cases hsolve : solve_task env (parseTask env qd) with
    | none => rfl
    | some a => rw [hsub]
  refine ⟨hsub, hsingle, findSubmitAux_leftmost, ?_⟩
  intro T t0 nowAt fuel k hq ht
  rw [solve_quiz_chain_aux, if_neg hq, ht]
  simp only [Bool.false_eq_true, if_false, hsingle]

/-- Concrete environment for the C7 witness: a page whose rendered content
holds no submit URL. -/
def c7env : Env :=
  { trivEnv with
      fetchPage := fun u => some ⟨"hello there", "", u⟩,
      ask := fun _ _ => some "5" }

/-- Witness for C7: with no `/submit` URL in the content, the iteration
returns no next URL, issues no POST, and the chain ends. -/
theorem c7_no_submit_url_witness :
    solve_single_quiz c7env "http://q/1" "e" "s" = (none, []) ∧
    solve_quiz_chain_aux c7env "e" "s" ⟨180, some 0, none⟩ (fun _ => 0) 4 0 "http://q/1"
      = ([(0, "http://q/1")], .complete) := by
  have h := c7_no_submit_url_fails_iteration c7env "http://q/1" "e" "s"
    ⟨"hello there", "", "http://q/1"⟩ rfl (by decide)
  exact ⟨h.2.1, h.2.2.2 180 0 (fun _ => 0) 3 0 (by decide)
    (by rw [started_is_timeout]; exact decide_eq_false (by norm_num))⟩

end QuizSolver
